import Mathlib

/-!
Shallow embedding of `pandas_cub/dataframe.py` (a minimal columnar DataFrame
with a selection algebra, column assignment, and a string accessor), together
with proofs of the specification claims about it.

NumPy arrays are modelled as a dtype kind, an `ndim` count, and a flat element
list (only 1-D arrays survive construction, so the flat list suffices).
Python exceptions are modelled with `Except PyErr`.
-/

set_option autoImplicit false

namespace PandasCub

/-- An element of a column: 64-bit ints, bools, strings and the null marker
`None` cover every dtype the claims touch (floats never appear in a claim). -/
inductive Elem where
  | int : Int → Elem
  | bool : Bool → Elem
  | str : String → Elem
  | none : Elem
deriving DecidableEq, Repr, Inhabited

/-- NumPy dtype kinds as used by the source: `'i'`, `'f'`, `'b'`, `'O'`, `'U'`. -/
inductive Kind where
  | i | f | b | O | U
deriving DecidableEq, Repr, Inhabited

/-- A NumPy array: dtype kind, number of dimensions, and the element data
(flat; only `ndim = 1` arrays are ever indexed after construction). -/
structure NDArray where
  kind : Kind
  ndim : Nat
  data : List Elem
deriving DecidableEq, Repr, Inhabited

/-- Python exceptions raised by the source. -/
inductive PyErr where
  | typeError : String → PyErr
  | valueError : String → PyErr
  | keyError : String → PyErr
  | indexError : String → PyErr
  | notImplementedError : String → PyErr
  | attributeError : String → PyErr
deriving DecidableEq, Repr

instance {ε α : Type} [DecidableEq ε] [DecidableEq α] : DecidableEq (Except ε α) :=
  fun a b =>
    match a, b with
    | Except.ok x, Except.ok y =>
      if h : x = y then Decidable.isTrue (by rw [h])
      else Decidable.isFalse (by intro hc; cases hc; exact h rfl)
    | Except.error x, Except.error y =>
      if h : x = y then Decidable.isTrue (by rw [h])
      else Decidable.isFalse (by intro hc; cases hc; exact h rfl)
    | Except.ok _, Except.error _ => Decidable.isFalse (by intro hc; cases hc)
    | Except.error _, Except.ok _ => Decidable.isFalse (by intro hc; cases hc)

/-- A DataFrame's `_data`: an insertion-ordered dict from column name to array,
modelled as an association list (Python 3.7+ dicts preserve insertion order). -/
structure DataFrame where
  data : List (String × NDArray)
deriving DecidableEq, Repr, Inhabited

/-- `self._data[k]`: dict lookup, raising `KeyError` when absent. -/
def dictGet (d : List (String × NDArray)) (k : String) : Except PyErr NDArray :=
  match d.find? (fun p => p.1 == k) with
  | Option.some p => Except.ok p.2
  | Option.none => Except.error (PyErr.keyError k)

/-- `d[k] = v` on a Python dict: overwrite in place (keeping the key's
position) when the key exists, append otherwise. -/
def dictInsert (d : List (String × NDArray)) (k : String) (v : NDArray) :
    List (String × NDArray) :=
  if d.any (fun p => p.1 == k) then
    d.map (fun p => if p.1 == k then (k, v) else p)
  else d ++ [(k, v)]

/-- A raw Python key: a string or something else (`_check_input_types` only
distinguishes these two cases). -/
inductive PyKey where
  | str : String → PyKey
  | nonStr : PyKey
deriving DecidableEq, Repr

/-- A raw Python dict value: a NumPy array or something else. -/
inductive PyVal where
  | arr : NDArray → PyVal
  | nonArr : PyVal
deriving DecidableEq, Repr

/-- The constructor argument: a dict (ordered key/value pairs) or a non-dict. -/
inductive PyData where
  | dict : List (PyKey × PyVal) → PyData
  | nonDict : PyData
deriving DecidableEq, Repr

/-- The per-item loop of `DataFrame._check_input_types`: non-string key →
`TypeError`, non-array value → `TypeError`, multi-dimensional array →
`ValueError`; the first offending item wins. -/
def check_input_types_items : List (PyKey × PyVal) → Except PyErr Unit
  | [] => Except.ok ()
  | (k, v) :: rest =>
    match k with
    | PyKey.nonStr => Except.error (PyErr.typeError "All column names must be a string")
    | PyKey.str _ =>
      match v with
      | PyVal.nonArr => Except.error (PyErr.typeError "All values must be a 1-D NumPy array")
      | PyVal.arr a =>
        if a.ndim ≠ 1 then Except.error (PyErr.valueError "All values must be 1-D Numpy array")
        else check_input_types_items rest

/-- `DataFrame._check_input_types`: rejects a non-dict argument, then checks
each item. -/
def check_input_types : PyData → Except PyErr Unit
  | PyData.nonDict => Except.error (PyErr.typeError "`data` must be a dictionary of1-D NumPy arrays")
  | PyData.dict entries => check_input_types_items entries

/-- After `_check_input_types` passes, every item is a string key with an
array value; extract them (items of other shapes cannot remain). -/
def extractEntries : List (PyKey × PyVal) → List (String × NDArray)
  | [] => []
  | (PyKey.str s, PyVal.arr a) :: rest => (s, a) :: extractEntries rest
  | _ :: rest => extractEntries rest

/-- `DataFrame._check_array_lengths`: `len(set(lengths)) != 1` raises
`ValueError` (so an empty dict is also rejected). `set` cardinality is the
number of distinct lengths, i.e. `List.dedup` length. -/
def check_array_lengths (d : List (String × NDArray)) : Except PyErr Unit :=
  let lengths := d.map (fun p => p.2.data.length)
  if lengths.dedup.length ≠ 1 then
    Except.error (PyErr.valueError "All arrays (column values) must have the same length")
  else Except.ok ()

/-- `DataFrame._convert_unicode_to_object`: `astype(object)` on each `'U'`
array — the dtype kind becomes `'O'`, the elements are unchanged. -/
def convertUnicodeToObject (d : List (String × NDArray)) : List (String × NDArray) :=
  d.map (fun p =>
    if p.2.kind = Kind.U then (p.1, ⟨Kind.O, p.2.ndim, p.2.data⟩) else p)

/-- `DataFrame._add_docs`: runs `getattr(DataFrame, name).__doc__ = ...` over
`['min', 'max', ...]`. This snapshot of the class defines none of those
aggregation methods, so the very first lookup, `getattr(DataFrame, 'min')`,
raises `AttributeError` — unconditionally, on every construction. -/
def add_docs : Except PyErr Unit :=
  Except.error (PyErr.attributeError "type object 'DataFrame' has no attribute 'min'")

/-- `DataFrame.__init__` on a raw Python value: type checks, length check,
unicode-to-object conversion, then the `self._add_docs()` call — which in
this snapshot always raises, so construction never returns. -/
def create (d : PyData) : Except PyErr DataFrame := do
  check_input_types d
  match d with
  | PyData.nonDict => Except.error (PyErr.typeError "`data` must be a dictionary of1-D NumPy arrays")
  | PyData.dict items =>
    let entries := extractEntries items
    check_array_lengths entries
    add_docs
    pure ⟨convertUnicodeToObject entries⟩

/-- The ndim check of `_check_input_types` restricted to a genuine
string-to-array dict (the shape of every internal `DataFrame({...})` call). -/
def checkNdims : List (String × NDArray) → Except PyErr Unit
  | [] => Except.ok ()
  | (_, a) :: rest =>
    if a.ndim ≠ 1 then Except.error (PyErr.valueError "All values must be 1-D Numpy array")
    else checkNdims rest

/-- `DataFrame(new_data)` where `new_data` is already a dict of string keys
and NumPy arrays (the shape of every internal constructor call ending every
selection and the string accessor): `_check_input_types` reduces to the ndim
check, then the length check and the unicode conversion run as in `__init__`
— and then `_add_docs` raises, so these calls never return either. -/
def createChecked (entries : List (String × NDArray)) : Except PyErr DataFrame := do
  checkNdims entries
  check_array_lengths entries
  add_docs
  pure ⟨convertUnicodeToObject entries⟩

/-- `DataFrame.__len__`: the length of the first column's array
(`next(iter(self._data.values()))` — raises on an empty dict in Python;
constructed frames are never empty, see the C10 theorem). -/
def DataFrame.len (df : DataFrame) : Nat :=
  match df.data with
  | [] => 0
  | (_, a) :: _ => a.data.length

/-- `DataFrame.columns`: the ordered list of column names. -/
def DataFrame.columns (df : DataFrame) : List String :=
  df.data.map Prod.fst

/-- Well-formedness of a constructed frame: nonempty, unique names, 1-D
equal-length columns, no `'U'` arrays (they were converted at construction). -/
def DataFrame.WF (df : DataFrame) : Prop :=
  df.data ≠ [] ∧ df.columns.Nodup ∧
  ∀ p ∈ df.data, p.2.ndim = 1 ∧ p.2.data.length = df.len ∧ p.2.kind ≠ Kind.U

instance (df : DataFrame) : Decidable df.WF := by
  unfold DataFrame.WF
  infer_instance

/-! ## Python slicing (`list[start:stop:step]`, also NumPy 1-D basic slicing) -/

/-- Number of indices a slice produces once its bounds are clamped
(CPython's `PySlice_AdjustIndices` count). -/
def sliceCount (start stop step : Int) : Nat :=
  if step > 0 then
    if start ≥ stop then 0 else ((stop - start - 1) / step).toNat + 1
  else
    if start ≤ stop then 0 else ((start - stop - 1) / (-step)).toNat + 1

/-- CPython slice semantics: default and clamp the bounds for a sequence of
length `n`, then list the selected indices (`slice.indices` plus expansion).
A zero step raises `ValueError`. -/
def sliceIndices (n : Nat) (start stop step : Option Int) : Except PyErr (List Int) :=
  let step' := step.getD 1
  if step' = 0 then Except.error (PyErr.valueError "slice step cannot be zero")
  else if step' > 0 then
    let lo := match start with
      | Option.none => 0
      | Option.some s => if s < 0 then max (s + n) 0 else min s n
    let hi := match stop with
      | Option.none => (n : Int)
      | Option.some s => if s < 0 then max (s + n) 0 else min s n
    Except.ok ((List.range (sliceCount lo hi step')).map (fun k => lo + step' * k))
  else
    let lo := match start with
      | Option.none => (n : Int) - 1
      | Option.some s => if s < 0 then max (s + n) (-1) else min s ((n : Int) - 1)
    let hi := match stop with
      | Option.none => -1
      | Option.some s => if s < 0 then max (s + n) (-1) else min s ((n : Int) - 1)
    Except.ok ((List.range (sliceCount lo hi step')).map (fun k => lo + step' * k))

/-- `l[start:stop:step]` on a Python list. All indices produced by
`sliceIndices` are in range, so the `filterMap` drops nothing. -/
def listSlice {α : Type} (l : List α) (start stop step : Option Int) :
    Except PyErr (List α) := do
  let idxs ← sliceIndices l.length start stop step
  pure (idxs.filterMap (fun i => l[i.toNat]?))

/-- `l[i]` on a Python list: negative indices count from the end,
out-of-range raises `IndexError`. -/
def pyIndex {α : Type} (l : List α) (i : Int) : Except PyErr α :=
  let j := if i < 0 then i + l.length else i
  if j < 0 then Except.error (PyErr.indexError "list index out of range")
  else match l[j.toNat]? with
    | Option.some a => Except.ok a
    | Option.none => Except.error (PyErr.indexError "list index out of range")

/-- `l.index(x)` on a Python list: first position of `x`, `ValueError` when
absent. -/
def listIndex (l : List String) (x : String) : Except PyErr Nat :=
  match l.findIdx? (fun c => c == x) with
  | Option.some i => Except.ok i
  | Option.none => Except.error (PyErr.valueError "x is not in list")

/-! ## NumPy 1-D indexing -/

/-- NumPy integer fancy indexing on a 1-D array: each index may be negative
(counts from the end), out-of-bounds raises `IndexError`; dtype is kept. -/
def fancyIndex (values : NDArray) (idxs : List Int) : Except PyErr NDArray := do
  let n := values.data.length
  let elems ← idxs.mapM (fun i =>
    let j : Int := if i < 0 then i + (n : Int) else i
    if j < 0 then Except.error (PyErr.indexError "index out of bounds")
    else match values.data[j.toNat]? with
      | Option.some e => Except.ok e
      | Option.none => Except.error (PyErr.indexError "index out of bounds"))
  pure ⟨values.kind, 1, elems⟩

/-- Keep the elements whose mask entry is `True`, in order. -/
def maskFilter : List Elem → List Elem → List Elem
  | v :: vs, m :: ms =>
    if m = Elem.bool true then v :: maskFilter vs ms else maskFilter vs ms
  | _, _ => []

/-- NumPy boolean-mask indexing on a 1-D array: the mask must have the same
length (`IndexError` otherwise); rows where the mask is true survive in
order; dtype is kept. -/
def boolIndex (values mask : NDArray) : Except PyErr NDArray :=
  if mask.data.length ≠ values.data.length then
    Except.error (PyErr.indexError "boolean index did not match indexed array")
  else Except.ok ⟨values.kind, 1, maskFilter values.data mask.data⟩

/-- NumPy 1-D basic slicing `values[a:b:c]`: same index arithmetic as list
slicing, dtype kept. (In NumPy this returns a view; the pure model keeps the
values — aliasing is treated separately in the reference-heap model below.) -/
def arraySlice (values : NDArray) (start stop step : Option Int) :
    Except PyErr NDArray := do
  let elems ← listSlice values.data start stop step
  pure ⟨values.kind, 1, elems⟩

/-! ## The selection engine (`__getitem__` / `_getitem_tuple`) -/

/-- An entry of a column-selection list: `isinstance(col, int)` or a name. -/
inductive IntOrStr where
  | int : Int → IntOrStr
  | str : String → IntOrStr
deriving DecidableEq, Repr

/-- A slice bound in a column slice: absent, integer, or string label. -/
inductive SliceBound where
  | none : SliceBound
  | int : Int → SliceBound
  | str : String → SliceBound
deriving DecidableEq, Repr

/-- The row part of a two-item tuple selector. `other` stands for any
unsupported Python value. -/
inductive RowSel where
  | int : Int → RowSel
  | list : List Int → RowSel
  | slice : Option Int → Option Int → Option Int → RowSel
  | df : DataFrame → RowSel
  | other : RowSel
deriving Repr

/-- The column part of a two-item tuple selector. -/
inductive ColSel where
  | int : Int → ColSel
  | str : String → ColSel
  | list : List IntOrStr → ColSel
  | slice : SliceBound → SliceBound → Option Int → ColSel
  | other : ColSel
deriving Repr

/-- A normalized row selection as consumed by `self._data[col][row_selection]`:
an integer list (fancy indexing), a boolean mask array, or a slice. -/
inductive ResRow where
  | idxs : List Int → ResRow
  | mask : NDArray → ResRow
  | slice : Option Int → Option Int → Option Int → ResRow
deriving Repr

/-- Row-selector normalization of `_getitem_tuple`: an int is wrapped as a
one-element list; a DataFrame must be one boolean column and is unwrapped to
its mask; a list or slice passes through; anything else is a `TypeError`. -/
def resolveRows (rowS : RowSel) : Except PyErr ResRow :=
  match rowS with
  | RowSel.int i => Except.ok (ResRow.idxs [i])
  | RowSel.df d =>
    if d.data.length ≠ 1 then
      Except.error (PyErr.valueError "Can only pass a one column DataFrame for selection")
    else
      let arr := (d.data.headD ("", default)).2
      if arr.kind ≠ Kind.b then Except.error (PyErr.typeError "DataFrame must be a boolean")
      else Except.ok (ResRow.mask arr)
  | RowSel.list l => Except.ok (ResRow.idxs l)
  | RowSel.slice a b c => Except.ok (ResRow.slice a b c)
  | RowSel.other =>
    Except.error (PyErr.typeError "Row selection must be either an int, slice, list, or DataFrame")

/-- Column-selector normalization of `_getitem_tuple`: an int becomes the name
at that position (`self.columns[cs]`, negative allowed); a string is wrapped;
a list maps ints to names and passes strings through; a slice converts string
bounds via `columns.index`, adding one to a string stop so the named column is
inclusive, and then slices `self.columns`; anything else is a `TypeError`. -/
def resolveCols (df : DataFrame) (colS : ColSel) : Except PyErr (List String) :=
  match colS with
  | ColSel.int i => do
      let c ← pyIndex df.columns i
      pure [c]
  | ColSel.str c => Except.ok [c]
  | ColSel.list l => l.mapM (fun e =>
      match e with
      | IntOrStr.int i => pyIndex df.columns i
      | IntOrStr.str s => Except.ok s)
  | ColSel.slice start stop step => do
      let start' ← match start with
        | SliceBound.none => pure Option.none
        | SliceBound.int i => pure (Option.some i)
        | SliceBound.str s => do
            let i ← listIndex df.columns s
            pure (Option.some (i : Int))
      let stop' ← match stop with
        | SliceBound.none => pure Option.none
        | SliceBound.int i => pure (Option.some i)
        | SliceBound.str s => do
            let i ← listIndex df.columns s
            pure (Option.some ((i : Int) + 1))
      listSlice df.columns start' stop' step
  | ColSel.other =>
    Except.error (PyErr.typeError "Column selection must be either an int, string, list, or slice")

/-- The materialization loop of `_getitem_tuple`:
`new_data[col] = self._data[col][row_selection]` over the resolved names. -/
def buildTupleData (df : DataFrame) (rs : ResRow) (acc : List (String × NDArray)) :
    List String → Except PyErr (List (String × NDArray))
  | [] => Except.ok acc
  | c :: rest => do
      let a ← dictGet df.data c
      let a' ← (match rs with
        | ResRow.idxs l => fancyIndex a l
        | ResRow.mask m => boolIndex a m
        | ResRow.slice x y z => arraySlice a x y z)
      buildTupleData df rs (dictInsert acc c a') rest

/-- `DataFrame._getitem_tuple` on the two components of the tuple (the
`len(item) != 2` arity `ValueError` guards entry and is not modelled since the
embedding takes the two components directly). -/
def DataFrame.getitem_tuple (df : DataFrame) (rowS : RowSel) (colS : ColSel) :
    Except PyErr DataFrame := do
  let rs ← resolveRows rowS
  let cols ← resolveCols df colS
  let entries ← buildTupleData df rs [] cols
  createChecked entries

/-- `df[item]` for a single string: `DataFrame({item: self._data[item]})`. -/
def DataFrame.getitem_str (df : DataFrame) (item : String) : Except PyErr DataFrame := do
  let a ← dictGet df.data item
  createChecked [(item, a)]

/-- The dict comprehension `{col: self._data[col] for col in item}` (duplicate
names collapse, as in any dict build). -/
def dictCompGet (d : List (String × NDArray)) (acc : List (String × NDArray)) :
    List String → Except PyErr (List (String × NDArray))
  | [] => Except.ok acc
  | c :: rest => do
      let a ← dictGet d c
      dictCompGet d (dictInsert acc c a) rest

/-- `df[item]` for a list of names. -/
def DataFrame.getitem_list (df : DataFrame) (item : List String) :
    Except PyErr DataFrame := do
  let entries ← dictCompGet df.data [] item
  createChecked entries

/-- The row-filter loop of boolean selection:
`new_data[col] = values[bool_arr]` over the frame's own items. -/
def buildBoolData (mask : NDArray) (acc : List (String × NDArray)) :
    List (String × NDArray) → Except PyErr (List (String × NDArray))
  | [] => Except.ok acc
  | (c, values) :: rest => do
      let a' ← boolIndex values mask
      buildBoolData mask (dictInsert acc c a') rest

/-- `df[item]` for a boolean one-column DataFrame: shape and dtype checks,
then the per-column mask filter. -/
def DataFrame.getitem_bool (df : DataFrame) (item : DataFrame) :
    Except PyErr DataFrame :=
  if item.data.length ≠ 1 then
    Except.error (PyErr.valueError "Can only pass a one column DataFrame for selection")
  else
    let bool_arr := (item.data.headD ("", default)).2
    if bool_arr.kind ≠ Kind.b then Except.error (PyErr.typeError "DataFrame must be a boolean")
    else do
      let entries ← buildBoolData bool_arr [] df.data
      createChecked entries

/-- A top-level selector value for `__getitem__`. -/
inductive Selector where
  | str : String → Selector
  | list : List String → Selector
  | df : DataFrame → Selector
  | tuple : RowSel → ColSel → Selector
  | other : Selector
deriving Repr

/-- `DataFrame.__getitem__`: dispatch on the selector's runtime type in the
source's order. -/
def DataFrame.getitem (df : DataFrame) : Selector → Except PyErr DataFrame
  | Selector.str s => df.getitem_str s
  | Selector.list l => df.getitem_list l
  | Selector.df d => df.getitem_bool d
  | Selector.tuple rs cs => df.getitem_tuple rs cs
  | Selector.other =>
    Except.error (PyErr.typeError "Select with either a string, a list, or a row and column simultaneous selection")

/-! ## Column assignment (`__setitem__`) -/

/-- A value assigned to a column. Python also accepts a `float` scalar on the
same broadcast path as the other scalars; floats are outside the element
model, so that constructor is omitted. `other` is any unsupported value. -/
inductive SetVal where
  | arr : NDArray → SetVal
  | df : DataFrame → SetVal
  | int : Int → SetVal
  | str : String → SetVal
  | bool : Bool → SetVal
  | other : SetVal
deriving Repr

/-- The tail of `__setitem__` once `value` is a validated array: a `'U'` array
is cast to `'O'`, then `self._data[key] = value`. -/
def finishSet (df : DataFrame) (k : String) (a : NDArray) :
    Except PyErr Unit × DataFrame :=
  let a' := if a.kind = Kind.U then ⟨Kind.O, a.ndim, a.data⟩ else a
  (Except.ok (), ⟨dictInsert df.data k a'⟩)

/-- `DataFrame.__setitem__`, with the in-place mutation made explicit: the
second component is the frame's `_data` after the call (unchanged on every
error path, since the assignment is the method's last statement). -/
def DataFrame.setitem (df : DataFrame) (key : PyKey) (value : SetVal) :
    Except PyErr Unit × DataFrame :=
  match key with
  | PyKey.nonStr =>
    (Except.error (PyErr.notImplementedError "Only able to set a single column"), df)
  | PyKey.str k =>
    match value with
    | SetVal.arr a =>
      if a.ndim ≠ 1 then (Except.error (PyErr.valueError "Setting array must be 1D"), df)
      else if a.data.length ≠ df.len then
        (Except.error (PyErr.valueError "Setting array must be same length as DataFrame"), df)
      else finishSet df k a
    | SetVal.df d =>
      if d.data.length ≠ 1 then
        (Except.error (PyErr.valueError "Setting DataFrame must be one column"), df)
      else if d.len ≠ df.len then
        (Except.error (PyErr.valueError "Setting and Calling DataFrames must be the same length"), df)
      else finishSet df k (d.data.headD ("", default)).2
    | SetVal.int i => finishSet df k ⟨Kind.i, 1, List.replicate df.len (Elem.int i)⟩
    | SetVal.str s => finishSet df k ⟨Kind.U, 1, List.replicate df.len (Elem.str s)⟩
    | SetVal.bool b => finishSet df k ⟨Kind.b, 1, List.replicate df.len (Elem.bool b)⟩
    | SetVal.other =>
      (Except.error (PyErr.typeError "Setting value must either be a numpy array, DataFrame, integer, string, float, or boolean"), df)

/-! ## The string accessor (`StringMethods._str_method`) -/

/-- NumPy dtype inference for `np.array(new_values)` on the value shapes a
string method can return: all strings → `'U'`, all ints → `'i'`, all bools →
`'b'`, an empty list → `'f'`, any `None` or mixture → `'O'`. -/
def inferKind (l : List Elem) : Kind :=
  if l.isEmpty then Kind.f
  else if l.all (fun e => match e with | Elem.str _ => true | _ => false) then Kind.U
  else if l.all (fun e => match e with | Elem.int _ => true | _ => false) then Kind.i
  else if l.all (fun e => match e with | Elem.bool _ => true | _ => false) then Kind.b
  else Kind.O

/-- `np.array(new_values)` for a 1-D list of results. -/
def npArrayOf (l : List Elem) : NDArray :=
  ⟨inferKind l, 1, l⟩

/-- The element loop of `_str_method`: `None` passes through, a string gets
the method applied, and (as in CPython) the unbound method rejects any other
element of an object column with `TypeError`. -/
def strMethodLoop (method : String → Elem) : List Elem → Except PyErr (List Elem)
  | [] => Except.ok []
  | Elem.none :: rest => (strMethodLoop method rest).map (fun t => Elem.none :: t)
  | Elem.str s :: rest => (strMethodLoop method rest).map (fun t => method s :: t)
  | _ :: _ => Except.error (PyErr.typeError "descriptor requires a str argument")

/-- `StringMethods._str_method`: `method` is the bound Python string method
with its extra arguments already applied (each public accessor method is a
thin wrapper passing a different `method`). Non-object columns raise
`TypeError`. -/
def str_method (method : String → Elem) (df : DataFrame) (col : String) :
    Except PyErr DataFrame := do
  let old_values ← dictGet df.data col
  if old_values.kind ≠ Kind.O then
    Except.error (PyErr.typeError "The `str` accessor only works with string columns")
  else do
    let new_values ← strMethodLoop method old_values.data
    createChecked [(col, npArrayOf new_values)]

/-! ## Helper lemmas -/

theorem dedup_length_one_of_all {l : List Nat} {n : Nat} (hne : l ≠ []) (h : ∀ x ∈ l, x = n) :
    l.dedup.length = 1 := by
  have hmemn : n ∈ l.dedup := by
    rw [List.mem_dedup]
    cases l with
    | nil => exact absurd rfl hne
    | cons a t =>
      have ha := h a (by simp)
      rw [← ha]
      exact List.mem_cons_self a t
  have hnd := l.nodup_dedup
  rcases hd : l.dedup with _ | ⟨a, t⟩
  · rw [hd] at hmemn; simp at hmemn
  · rcases t with _ | ⟨b, t'⟩
    · rfl
    · exfalso
      have ha : a ∈ l := List.mem_dedup.mp (by rw [hd]; simp)
      have hb : b ∈ l := List.mem_dedup.mp (by rw [hd]; simp)
      have : a = b := by rw [h a ha, h b hb]
      rw [hd] at hnd
      simp [this] at hnd

theorem all_eq_of_dedup_length_one {l : List Nat} (h : l.dedup.length = 1) :
    ∃ n, l ≠ [] ∧ ∀ x ∈ l, x = n := by
  rcases hd : l.dedup with _ | ⟨a, t⟩
  · rw [hd] at h; simp at h
  · rcases t with _ | ⟨b, t'⟩
    · refine ⟨a, ?_, ?_⟩
      · intro hnil
        rw [hnil] at hd; simp at hd
      · intro x hx
        have : x ∈ l.dedup := List.mem_dedup.mpr hx
        rw [hd] at this
        simpa using this
    · rw [hd] at h; simp at h

theorem check_array_lengths_ok {d : List (String × NDArray)} :
    check_array_lengths d = Except.ok () ↔
      (d.map (fun p => p.2.data.length)).dedup.length = 1 := by
  unfold check_array_lengths
  by_cases h : (d.map (fun p => p.2.data.length)).dedup.length = 1 <;> simp [h]

theorem checkNdims_ok {d : List (String × NDArray)} (h : ∀ p ∈ d, p.2.ndim = 1) :
    checkNdims d = Except.ok () := by
  induction d with
  | nil => rfl
  | cons p rest ih =>
    have hp := h p (by simp)
    unfold checkNdims
    rcases p with ⟨s, a⟩
    simp only at hp
    simp [hp]
    exact ih (fun q hq => h q (by simp [hq]))

theorem createChecked_err {entries : List (String × NDArray)}
    (hnd : ∀ p ∈ entries, p.2.ndim = 1)
    (hlen : (entries.map (fun p => p.2.data.length)).dedup.length = 1) :
    createChecked entries =
      Except.error (PyErr.attributeError "type object 'DataFrame' has no attribute 'min'") := by
  unfold createChecked
  rw [checkNdims_ok hnd]
  have := check_array_lengths_ok.mpr hlen
  rw [this]
  rfl

/-- An item of the constructor dict that passes `_check_input_types`:
a string key with a 1-D array value. -/
def cleanItem : PyKey × PyVal → Bool
  | (PyKey.str _, PyVal.arr a) => a.ndim == 1
  | _ => false

theorem check_items_append_clean {pre : List (PyKey × PyVal)}
    (h : ∀ i ∈ pre, cleanItem i = true) (rest : List (PyKey × PyVal)) :
    check_input_types_items (pre ++ rest) = check_input_types_items rest := by
  induction pre with
  | nil => simp
  | cons i t ih =>
    have hi := h i (by simp)
    rcases i with ⟨k, v⟩
    rcases k with k | _
    · rcases v with a | _
      · have ha : a.ndim = 1 := by simpa [cleanItem] using hi
        have heq : check_input_types_items ((PyKey.str k, PyVal.arr a) :: (t ++ rest)) =
            check_input_types_items (t ++ rest) := by
          show (if a.ndim ≠ 1 then
              Except.error (PyErr.valueError "All values must be 1-D Numpy array")
            else check_input_types_items (t ++ rest)) = check_input_types_items (t ++ rest)
          simp [ha]
        rw [List.cons_append, heq]
        exact ih (fun j hj => h j (by simp [hj]))
      · simp [cleanItem] at hi
    · simp [cleanItem] at hi

theorem check_items_clean {items : List (PyKey × PyVal)}
    (h : ∀ i ∈ items, cleanItem i = true) :
    check_input_types_items items = Except.ok () := by
  have := check_items_append_clean h []
  simpa using this

theorem create_dict_eq (items : List (PyKey × PyVal)) :
    create (PyData.dict items) =
      (match check_input_types_items items with
       | Except.error e => Except.error e
       | Except.ok _ =>
         match check_array_lengths (extractEntries items) with
         | Except.error e => Except.error e
         | Except.ok _ =>
           Except.error (PyErr.attributeError "type object 'DataFrame' has no attribute 'min'")) := by
  cases h1 : check_input_types_items items with
  | error e => simp [create, check_input_types, h1, Bind.bind, Except.bind]
  | ok u =>
    cases h2 : check_array_lengths (extractEntries items) with
    | error e => simp [create, check_input_types, h1, h2, Bind.bind, Except.bind]
    | ok v =>
      simp [create, check_input_types, h1, h2, Bind.bind, Except.bind, add_docs]

theorem createChecked_eq (entries : List (String × NDArray)) :
    createChecked entries =
      (match checkNdims entries with
       | Except.error e => Except.error e
       | Except.ok _ =>
         match check_array_lengths entries with
         | Except.error e => Except.error e
         | Except.ok _ =>
           Except.error (PyErr.attributeError "type object 'DataFrame' has no attribute 'min'")) := by
  cases h1 : checkNdims entries with
  | error e => simp [createChecked, h1, Bind.bind, Except.bind]
  | ok u =>
    cases h2 : check_array_lengths entries with
    | error e => simp [createChecked, h1, h2, Bind.bind, Except.bind]
    | ok v => simp [createChecked, h1, h2, Bind.bind, Except.bind, add_docs]

theorem create_isOk_false (d : PyData) : (create d).isOk = false := by
  rcases d with items | _
  · rw [create_dict_eq]
    cases h1 : check_input_types_items items with
    | error e => rfl
    | ok u =>
      cases h2 : check_array_lengths (extractEntries items) with
      | error e => rfl
      | ok v => rfl
  · rfl

theorem createChecked_isOk_false (entries : List (String × NDArray)) :
    (createChecked entries).isOk = false := by
  rw [createChecked_eq]
  cases h1 : checkNdims entries with
  | error e => rfl
  | ok u =>
    cases h2 : check_array_lengths entries with
    | error e => rfl
    | ok v => rfl

theorem dictInsert_length (d : List (String × NDArray)) (k : String) (v : NDArray) :
    d.length ≤ (dictInsert d k v).length := by
  unfold dictInsert
  split
  · simp
  · simp

/-! ## Claim theorems -/

/-- C5: the rejection half of the claim is faithful to the code — a
non-mapping argument, a non-string key, or a non-array value raises
`TypeError`; a multi-dimensional array or a length mismatch across columns
raises `ValueError` (each condition at the first item that violates it,
earlier items being clean). But the success half never happens: on every
well-formed input (all items clean, lengths uniform) the constructor reaches
`self._add_docs()`, which raises `AttributeError` because this snapshot
defines none of the aggregation methods it patches — so construction never
succeeds and `rowCount()` is never established. -/
theorem construction_validation :
    create PyData.nonDict =
        Except.error (PyErr.typeError "`data` must be a dictionary of1-D NumPy arrays")
    ∧ (∀ pre v rest, (∀ i ∈ pre, cleanItem i = true) →
        create (PyData.dict (pre ++ (PyKey.nonStr, v) :: rest)) =
          Except.error (PyErr.typeError "All column names must be a string"))
    ∧ (∀ pre k rest, (∀ i ∈ pre, cleanItem i = true) →
        create (PyData.dict (pre ++ (PyKey.str k, PyVal.nonArr) :: rest)) =
          Except.error (PyErr.typeError "All values must be a 1-D NumPy array"))
    ∧ (∀ pre k a rest, (∀ i ∈ pre, cleanItem i = true) → a.ndim ≠ 1 →
        create (PyData.dict (pre ++ (PyKey.str k, PyVal.arr a) :: rest)) =
          Except.error (PyErr.valueError "All values must be 1-D Numpy array"))
    ∧ (∀ items, (∀ i ∈ items, cleanItem i = true) →
        (∃ p ∈ extractEntries items, ∃ q ∈ extractEntries items,
            p.2.data.length ≠ q.2.data.length) →
        create (PyData.dict items) =
          Except.error (PyErr.valueError "All arrays (column values) must have the same length"))
    ∧ (∀ items, (∀ i ∈ items, cleanItem i = true) →
        ((extractEntries items).map (fun p => p.2.data.length)).dedup.length = 1 →
        create (PyData.dict items) =
          Except.error (PyErr.attributeError "type object 'DataFrame' has no attribute 'min'")) := by
  refine ⟨rfl, ?_, ?_, ?_, ?_, ?_⟩
  · intro pre v rest h
    rw [create_dict_eq, check_items_append_clean h]
    rfl
  · intro pre k rest h
    rw [create_dict_eq, check_items_append_clean h]
    rfl
  · intro pre k a rest h ha
    rw [create_dict_eq, check_items_append_clean h]
    have : check_input_types_items ((PyKey.str k, PyVal.arr a) :: rest) =
        Except.error (PyErr.valueError "All values must be 1-D Numpy array") := by
      show (if a.ndim ≠ 1 then
          Except.error (PyErr.valueError "All values must be 1-D Numpy array")
        else check_input_types_items rest) = _
      simp [ha]
    rw [this]
  · intro items h hmis
    rw [create_dict_eq, check_items_clean h]
    have hne : ((extractEntries items).map (fun p => p.2.data.length)).dedup.length ≠ 1 := by
      intro h1
      rcases all_eq_of_dedup_length_one h1 with ⟨n, _, hall⟩
      rcases hmis with ⟨p, hp, q, hq, hpq⟩
      have h3 : p.2.data.length = n := hall _ (List.mem_map_of_mem _ hp)
      have h4 : q.2.data.length = n := hall _ (List.mem_map_of_mem _ hq)
      exact hpq (h3.trans h4.symm)
    have : check_array_lengths (extractEntries items) =
        Except.error (PyErr.valueError "All arrays (column values) must have the same length") := by
      unfold check_array_lengths
      simp [hne]
    rw [this]
  · intro items h hdedup
    rw [create_dict_eq, check_items_clean h, check_array_lengths_ok.mpr hdedup]

/-- Witness for C5: a perfectly well-formed one-column input still makes the
constructor raise `AttributeError` (in `_add_docs`) instead of succeeding. -/
theorem construction_validation_witness :
    create (PyData.dict [(PyKey.str "a", PyVal.arr ⟨Kind.i, 1, [Elem.int 1]⟩)]) =
      Except.error (PyErr.attributeError "type object 'DataFrame' has no attribute 'min'") :=
  construction_validation.2.2.2.2.2 _ (by decide) (by decide)

/-- C10: the empty-mapping case is faithful — it raises `ValueError` from the
uniform-length check — and no public operation removes columns
(`__setitem__` never shrinks the dict). But the claim's notion of a
"successfully constructed table" is empty in this snapshot: `_add_docs`
raises `AttributeError` at the end of every construction, raw or internal,
so no construction ever returns a table and `rowCount()` is never reached on
a constructed one. -/
theorem nonempty_columns_invariant :
    create (PyData.dict []) =
        Except.error (PyErr.valueError "All arrays (column values) must have the same length")
    ∧ (∀ d, (create d).isOk = false)
    ∧ (∀ entries, (createChecked entries).isOk = false)
    ∧ (∀ df k v, ((DataFrame.setitem df k v).2).data.length ≥ df.data.length) := by
  refine ⟨rfl, create_isOk_false, createChecked_isOk_false, ?_⟩
  · intro df k v
    rcases k with k | _
    · rcases v with a | d | i | s | b | _
      · by_cases h1 : a.ndim ≠ 1
        · simp [DataFrame.setitem, h1]
        · by_cases h2 : a.data.length ≠ df.len
          · simp [DataFrame.setitem, h1, h2]
          · simp only [DataFrame.setitem, h1, h2, if_false, finishSet]
            exact dictInsert_length _ _ _
      · by_cases h1 : d.data.length ≠ 1
        · simp [DataFrame.setitem, h1]
        · by_cases h2 : d.len ≠ df.len
          · simp [DataFrame.setitem, h1, h2]
          · simp only [DataFrame.setitem, h1, h2, if_false, finishSet]
            exact dictInsert_length _ _ _
      · simp only [DataFrame.setitem, finishSet]
        exact dictInsert_length _ _ _
      · simp only [DataFrame.setitem, finishSet]
        exact dictInsert_length _ _ _
      · simp only [DataFrame.setitem, finishSet]
        exact dictInsert_length _ _ _
      · simp [DataFrame.setitem]
    · simp [DataFrame.setitem]

theorem dictGet_ok_value {d : List (String × NDArray)} {c : String} {a : NDArray}
    (h : dictGet d c = Except.ok a) : ∃ q ∈ d, q.1 = c ∧ q.2 = a := by
  unfold dictGet at h
  cases hf : d.find? (fun p => p.1 == c) with
  | none => rw [hf] at h; cases h
  | some p =>
    rw [hf] at h
    cases h
    have hm := List.mem_of_find?_eq_some hf
    have hp := List.find?_some hf
    exact ⟨p, hm, by simpa using hp, rfl⟩

theorem dictGet_ok_of_mem {d : List (String × NDArray)} {c : String}
    (h : c ∈ d.map Prod.fst) : ∃ a, dictGet d c = Except.ok a := by
  unfold dictGet
  cases hf : d.find? (fun p => p.1 == c) with
  | some p => exact ⟨p.2, rfl⟩
  | none =>
    rcases List.mem_map.mp h with ⟨q, hq, rfl⟩
    have := List.find?_eq_none.mp hf q hq
    simp at this

theorem createChecked_single_err {c : String} {a : NDArray} (hnd : a.ndim = 1) :
    createChecked [(c, a)] =
      Except.error (PyErr.attributeError "type object 'DataFrame' has no attribute 'min'") :=
  createChecked_err (by simp [hnd]) (by simp)

/-- C7: the claim presupposes that `T.select(c)` yields a one-column frame,
but in this snapshot `DataFrame({item: self._data[item]})` raises
`AttributeError` in `_add_docs`, so selecting a present column never yields
any result — let alone idempotently: the first selection already evaluates
to that error. -/
theorem single_column_selection_idempotent {df : DataFrame} {c : String} {a : NDArray}
    (hWF : df.WF) (hc : dictGet df.data c = Except.ok a) :
    DataFrame.getitem df (Selector.str c) =
      Except.error (PyErr.attributeError "type object 'DataFrame' has no attribute 'min'") := by
  rcases dictGet_ok_value hc with ⟨q, hq, _, hqa⟩
  rcases hWF with ⟨-, -, hall⟩
  rcases hall q hq with ⟨hnd, -, -⟩
  rw [hqa] at hnd
  simp [DataFrame.getitem, DataFrame.getitem_str, hc, Bind.bind, Except.bind,
    createChecked_single_err hnd]

/-- Witness for C7 on a concrete two-column frame. -/
theorem single_column_selection_idempotent_witness :
    DataFrame.getitem
        (⟨[("a", ⟨Kind.i, 1, [Elem.int 1]⟩), ("b", ⟨Kind.b, 1, [Elem.bool true]⟩)]⟩)
        (Selector.str "a") =
      Except.error (PyErr.attributeError "type object 'DataFrame' has no attribute 'min'") :=
  single_column_selection_idempotent (a := ⟨Kind.i, 1, [Elem.int 1]⟩) (by decide) (by decide)

/-- C8: column assignment is all-or-nothing — whenever `__setitem__` raises,
the frame's `_data` (names, order, and every array) is exactly what it was
before the call. -/
theorem setitem_all_or_nothing {df : DataFrame} {k : PyKey} {v : SetVal} {e : PyErr}
    (h : (DataFrame.setitem df k v).1 = Except.error e) :
    (DataFrame.setitem df k v).2 = df := by
  rcases k with k | _
  · rcases v with a | d | i | s | b | _
    · by_cases h1 : a.ndim ≠ 1
      · simp [DataFrame.setitem, h1]
      · by_cases h2 : a.data.length ≠ df.len
        · simp [DataFrame.setitem, h1, h2]
        · simp [DataFrame.setitem, h1, h2, finishSet] at h
    · by_cases h1 : d.data.length ≠ 1
      · simp [DataFrame.setitem, h1]
      · by_cases h2 : d.len ≠ df.len
        · simp [DataFrame.setitem, h1, h2]
        · simp [DataFrame.setitem, h1, h2, finishSet] at h
    · simp [DataFrame.setitem, finishSet] at h
    · simp [DataFrame.setitem, finishSet] at h
    · simp [DataFrame.setitem, finishSet] at h
    · rfl
  · rfl

/-- Witness for C8: assigning a wrong-length array fails and leaves the
concrete frame untouched. -/
theorem setitem_all_or_nothing_witness :
    (DataFrame.setitem (⟨[("a", ⟨Kind.i, 1, [Elem.int 1, Elem.int 2]⟩)]⟩ : DataFrame)
        (PyKey.str "c") (SetVal.arr ⟨Kind.i, 1, [Elem.int 9]⟩)).2 =
      ⟨[("a", ⟨Kind.i, 1, [Elem.int 1, Elem.int 2]⟩)]⟩ :=
  setitem_all_or_nothing
    (e := PyErr.valueError "Setting array must be same length as DataFrame") (by decide)

/-- A text-column element: a string or the null marker. -/
def isTextElem : Elem → Bool
  | Elem.none => true
  | Elem.str _ => true
  | _ => false

theorem strMethodLoop_ok (method : String → Elem) {l : List Elem}
    (h : ∀ e ∈ l, isTextElem e = true) :
    strMethodLoop method l =
      Except.ok (l.map (fun e => match e with | Elem.str s => method s | e => e)) := by
  induction l with
  | nil => rfl
  | cons e t ih =>
    have he := h e (by simp)
    have ht := ih (fun x hx => h x (by simp [hx]))
    rcases e with i | b | s | _
    · simp [isTextElem] at he
    · simp [isTextElem] at he
    · simp [strMethodLoop, ht, Except.map]
    · simp [strMethodLoop, ht, Except.map]

/-- C6: the element loop of `_str_method` does exactly what the claim says —
null markers pass through in place and each string element gets the method —
but the method then ends in `DataFrame({col: arr})`, whose constructor
raises `AttributeError` in `_add_docs`, so the accessor never returns the
claimed one-column table: it always evaluates to that error. -/
theorem string_accessor_null_propagation (method : String → Elem) (df : DataFrame)
    (col : String) (a : NDArray)
    (hcol : dictGet df.data col = Except.ok a) (hk : a.kind = Kind.O)
    (helems : ∀ e ∈ a.data, isTextElem e = true) :
    strMethodLoop method a.data =
      Except.ok (a.data.map (fun e => match e with | Elem.str s => method s | e => e)) ∧
    str_method method df col =
      Except.error (PyErr.attributeError "type object 'DataFrame' has no attribute 'min'") := by
  have hloop := strMethodLoop_ok method helems
  refine ⟨hloop, ?_⟩
  have hcc : createChecked [(col, npArrayOf (a.data.map
      (fun e => match e with | Elem.str s => method s | e => e)))] =
      Except.error (PyErr.attributeError "type object 'DataFrame' has no attribute 'min'") :=
    createChecked_err (by simp [npArrayOf]) (by simp)
  simp [str_method, hcol, Bind.bind, Except.bind, hk, hloop, hcc]

/-- Witness for C6: on a concrete object column with a null in the middle,
the loop keeps the null in place and transforms the strings, and the
accessor call itself raises `AttributeError`. -/
theorem string_accessor_null_propagation_witness :
    strMethodLoop (fun s => Elem.str (s.push '!'))
        [Elem.str "x", Elem.none, Elem.str "z"] =
      Except.ok ([Elem.str "x", Elem.none, Elem.str "z"].map
        (fun e => match e with | Elem.str s => Elem.str (s.push '!') | e => e)) ∧
    str_method (fun s => Elem.str (s.push '!'))
        (⟨[("b", ⟨Kind.O, 1, [Elem.str "x", Elem.none, Elem.str "z"]⟩)]⟩ : DataFrame) "b" =
      Except.error (PyErr.attributeError "type object 'DataFrame' has no attribute 'min'") :=
  string_accessor_null_propagation (fun s => Elem.str (s.push '!'))
    ⟨[("b", ⟨Kind.O, 1, [Elem.str "x", Elem.none, Elem.str "z"]⟩)]⟩ "b"
    ⟨Kind.O, 1, [Elem.str "x", Elem.none, Elem.str "z"]⟩
    (by decide) (by decide) (by decide)

theorem resolveCols_neg_one {df : DataFrame} {c : String} (h5 : df.columns.length = 5)
    (hc : df.columns.getLast? = Option.some c) :
    resolveCols df (ColSel.int (-1)) = Except.ok [c] := by
  have hcl : df.columns[4]? = Option.some c := by
    rw [List.getLast?_eq_getElem?, h5] at hc
    simpa using hc
  have hpy : pyIndex df.columns (-1) = Except.ok c := by
    unfold pyIndex
    rw [h5]
    norm_num
    simp [hcl]
  simp [resolveCols, hpy, Bind.bind, Except.bind, pure, Except.pure]

/-- No branch of `__getitem__` can return: every check failure is an error
and every successful path ends in the `DataFrame(new_data)` constructor,
which raises `AttributeError` in `_add_docs`. -/
theorem getitem_never_ok (df : DataFrame) (s : Selector) :
    (DataFrame.getitem df s).isOk = false := by
  cases s with
  | str c =>
    simp only [DataFrame.getitem, DataFrame.getitem_str]
    cases hg : dictGet df.data c with
    | error e => simp [hg, Bind.bind, Except.bind, Except.isOk, Except.toBool]
    | ok a =>
      simp only [hg, Bind.bind, Except.bind]
      exact createChecked_isOk_false _
  | list l =>
    simp only [DataFrame.getitem, DataFrame.getitem_list]
    cases hg : dictCompGet df.data [] l with
    | error e => simp [hg, Bind.bind, Except.bind, Except.isOk, Except.toBool]
    | ok es =>
      simp only [hg, Bind.bind, Except.bind]
      exact createChecked_isOk_false _
  | df m =>
    simp only [DataFrame.getitem, DataFrame.getitem_bool]
    by_cases h1 : m.data.length ≠ 1
    · rw [if_pos h1]
      rfl
    · rw [if_neg h1]
      by_cases h2 : (m.data.headD ("", default)).2.kind ≠ Kind.b
      · rw [if_pos h2]
        rfl
      · rw [if_neg h2]
        cases hg : buildBoolData (m.data.headD ("", default)).2 [] df.data with
        | error e => simp [hg, Bind.bind, Except.bind, Except.isOk, Except.toBool]
        | ok es =>
          simp only [hg, Bind.bind, Except.bind]
          exact createChecked_isOk_false _
  | tuple rs cs =>
    simp only [DataFrame.getitem, DataFrame.getitem_tuple]
    cases hr : resolveRows rs with
    | error e => simp [hr, Bind.bind, Except.bind, Except.isOk, Except.toBool]
    | ok r =>
      cases hc : resolveCols df cs with
      | error e => simp [hr, hc, Bind.bind, Except.bind, Except.isOk, Except.toBool]
      | ok cols =>
        cases hb : buildTupleData df r [] cols with
        | error e => simp [hr, hc, hb, Bind.bind, Except.bind, Except.isOk, Except.toBool]
        | ok es =>
          simp only [hr, hc, hb, Bind.bind, Except.bind]
          exact createChecked_isOk_false _
  | other => rfl

/-- C1: the claim quantifies over the selectors for which `T.select(s)`
SUCCEEDS — and in this snapshot that set is empty: every branch of
`__getitem__` either raises a validation error or ends in the
`DataFrame(new_data)` constructor, which raises `AttributeError` in
`_add_docs`. No derived table is ever returned, so no backing storage can be
shared or copied, and the success-conditioned no-aliasing claim holds
vacuously. -/
theorem selection_never_aliases (df : DataFrame) (s : Selector) :
    (DataFrame.getitem df s).isOk = false :=
  getitem_never_ok df s

/-- C9: column index `-1` does resolve to the last column's name, making the
two tuple selections the very same computation — but the claim's
presupposition that the selection "yields a one-column result" fails: the
selection never returns, crashing in the final constructor (`_add_docs`) on
in-range rows or on an earlier indexing error otherwise. -/
theorem negative_column_index {df : DataFrame} {c : String} (rowS : RowSel)
    (h5 : df.columns.length = 5) (hc : df.columns.getLast? = Option.some c) :
    resolveCols df (ColSel.int (-1)) = Except.ok [c] ∧
    DataFrame.getitem df (Selector.tuple rowS (ColSel.int (-1))) =
      DataFrame.getitem df (Selector.tuple rowS (ColSel.str c)) ∧
    (DataFrame.getitem df (Selector.tuple rowS (ColSel.int (-1)))).isOk = false := by
  have h1 := resolveCols_neg_one h5 hc
  refine ⟨h1, ?_, getitem_never_ok df _⟩
  simp only [DataFrame.getitem, DataFrame.getitem_tuple]
  rw [h1]
  rfl

/-- A concrete five-column frame for tuple-selection witnesses. -/
def sampleDF5 : DataFrame :=
  ⟨[("a", ⟨Kind.i, 1, [Elem.int 1, Elem.int 2]⟩),
    ("b", ⟨Kind.i, 1, [Elem.int 3, Elem.int 4]⟩),
    ("c", ⟨Kind.i, 1, [Elem.int 5, Elem.int 6]⟩),
    ("d", ⟨Kind.i, 1, [Elem.int 7, Elem.int 8]⟩),
    ("e", ⟨Kind.i, 1, [Elem.int 9, Elem.int 10]⟩)]⟩

/-- Witness for C9 on a concrete five-column frame with an integer row
selector. -/
theorem negative_column_index_witness :
    resolveCols sampleDF5 (ColSel.int (-1)) = Except.ok ["e"] ∧
    DataFrame.getitem sampleDF5 (Selector.tuple (RowSel.int 0) (ColSel.int (-1))) =
      DataFrame.getitem sampleDF5 (Selector.tuple (RowSel.int 0) (ColSel.str "e")) ∧
    (DataFrame.getitem sampleDF5
      (Selector.tuple (RowSel.int 0) (ColSel.int (-1)))).isOk = false :=
  negative_column_index (RowSel.int 0) (by decide) (by decide)

theorem dictInsert_map_fst (d : List (String × NDArray)) (k : String) (v : NDArray) :
    (dictInsert d k v).map Prod.fst =
      if k ∈ d.map Prod.fst then d.map Prod.fst else d.map Prod.fst ++ [k] := by
  unfold dictInsert
  by_cases h : d.any (fun p => p.1 == k) = true
  · have hmem : k ∈ d.map Prod.fst := by
      rcases List.any_eq_true.mp h with ⟨p, hp, hpk⟩
      exact List.mem_map.mpr ⟨p, hp, by simpa using hpk⟩
    rw [if_pos h, if_pos hmem, List.map_map]
    apply List.map_congr_left
    intro p _
    simp only [Function.comp_apply]
    by_cases hpk : (p.1 == k) = true
    · rw [if_pos hpk]
      exact (by simpa using hpk : p.1 = k).symm
    · rw [if_neg hpk]
  · have hmem : k ∉ d.map Prod.fst := by
      intro hk
      rcases List.mem_map.mp hk with ⟨p, hp, rfl⟩
      exact h (List.any_eq_true.mpr ⟨p, hp, by simp⟩)
    rw [if_neg h, if_neg hmem]
    simp

theorem dictInsert_mem {d : List (String × NDArray)} {k : String} {v : NDArray}
    {p : String × NDArray} (hp : p ∈ dictInsert d k v) : p ∈ d ∨ p = (k, v) := by
  unfold dictInsert at hp
  by_cases h : d.any (fun q => q.1 == k) = true
  · rw [if_pos h] at hp
    rcases List.mem_map.mp hp with ⟨q, hq, rfl⟩
    by_cases hqk : (q.1 == k) = true
    · rw [if_pos hqk]
      exact Or.inr rfl
    · rw [if_neg hqk]
      exact Or.inl hq
  · rw [if_neg h] at hp
    rcases List.mem_append.mp hp with hp | hp
    · exact Or.inl hp
    · exact Or.inr (by simpa using hp)

theorem dictCompGet_ok {d : List (String × NDArray)} (keys : List String) :
    ∀ acc : List (String × NDArray),
    (∀ c ∈ keys, c ∈ d.map Prod.fst) →
    ∃ es, dictCompGet d acc keys = Except.ok es ∧
      es.map Prod.fst =
        keys.foldl (fun ks c => if c ∈ ks then ks else ks ++ [c]) (acc.map Prod.fst) ∧
      ∀ p ∈ es, p ∈ acc ∨ ∃ q ∈ d, p.2 = q.2 := by
  induction keys with
  | nil =>
    intro acc _
    exact ⟨acc, rfl, rfl, fun p hp => Or.inl hp⟩
  | cons c rest ih =>
    intro acc h
    obtain ⟨a, ha⟩ := dictGet_ok_of_mem (h c (by simp))
    obtain ⟨es, h1, h2, h3⟩ := ih (dictInsert acc c a) (fun x hx => h x (by simp [hx]))
    refine ⟨es, ?_, ?_, ?_⟩
    · simp only [dictCompGet, ha, Bind.bind, Except.bind]
      exact h1
    · rw [h2, List.foldl_cons]
      congr 1
      rw [dictInsert_map_fst]
    · intro p hp
      rcases h3 p hp with hin | hq
      · rcases dictInsert_mem hin with h' | h'
        · exact Or.inl h'
        · subst h'
          rcases dictGet_ok_value ha with ⟨q, hq, _, hqa⟩
          exact Or.inr ⟨q, hq, hqa.symm⟩
      · exact Or.inr hq

/-- The spec-side description of what the list-selection dict comprehension
does to duplicate names: keep the first occurrence of each name, in order. -/
def dedupKeepFirst (l : List String) : List String :=
  l.foldl (fun ks c => if c ∈ ks then ks else ks ++ [c]) []

theorem foldl_dedup_of_nodup (l : List String) :
    ∀ ks : List String, (∀ c ∈ l, c ∉ ks) → l.Nodup →
      l.foldl (fun ks c => if c ∈ ks then ks else ks ++ [c]) ks = ks ++ l := by
  induction l with
  | nil => intro ks _ _; simp
  | cons c t ih =>
    intro ks hdisj hnd
    rw [List.foldl_cons, if_neg (hdisj c (by simp))]
    rw [ih (ks ++ [c]) ?_ (List.nodup_cons.mp hnd).2]
    · simp
    · intro x hx
      simp only [List.mem_append, List.mem_singleton]
      rintro (h | h)
      · exact hdisj x (by simp [hx]) h
      · subst h
        exact (List.nodup_cons.mp hnd).1 hx

/-- C2 counterexample: selecting with the duplicated list `["a", "a"]` from a
frame with column `a` does not return a table with a repeated column — it
returns no table at all: the dict comprehension collapses the duplicate key
and the subsequent `DataFrame(new_data)` call raises `AttributeError` in
`_add_docs`. -/
theorem list_selection_duplicates_counterexample :
    DataFrame.getitem
        (⟨[("a", ⟨Kind.i, 1, [Elem.int 1]⟩), ("b", ⟨Kind.b, 1, [Elem.bool true]⟩)]⟩)
        (Selector.list ["a", "a"]) =
      Except.error (PyErr.attributeError "type object 'DataFrame' has no attribute 'min'") := by
  decide

/-- C2 amended: list selection never returns a table in this snapshot (the
final constructor raises `AttributeError`), and the dict comprehension
`{col: self._data[col] for col in item}` that builds the would-be result's
column dict collapses duplicate names to their first occurrence — it holds
exactly the given names only when the list is duplicate-free. -/
theorem list_selection_columns {df : DataFrame} {l : List String}
    (hmem : ∀ c ∈ l, c ∈ df.columns) :
    (∃ es, dictCompGet df.data [] l = Except.ok es ∧
      es.map Prod.fst = dedupKeepFirst l ∧ (l.Nodup → es.map Prod.fst = l)) ∧
    (DataFrame.getitem df (Selector.list l)).isOk = false := by
  obtain ⟨es, h1, h2, _⟩ := dictCompGet_ok l [] hmem
  have hkeys : es.map Prod.fst = dedupKeepFirst l := by
    rw [h2]
    rfl
  refine ⟨⟨es, h1, hkeys, ?_⟩, ?_⟩
  · intro hndl
    rw [hkeys]
    unfold dedupKeepFirst
    rw [foldl_dedup_of_nodup l [] (by simp) hndl]
    simp
  · simp only [DataFrame.getitem, DataFrame.getitem_list, h1, Bind.bind, Except.bind]
    exact createChecked_isOk_false es

/-- Witness for C2 (amended) on a concrete frame and a duplicate-free list. -/
theorem list_selection_columns_witness :
    (∃ es, dictCompGet sampleDF5.data [] ["b", "a"] = Except.ok es ∧
      es.map Prod.fst = dedupKeepFirst ["b", "a"] ∧
      ((["b", "a"] : List String).Nodup → es.map Prod.fst = ["b", "a"])) ∧
    (DataFrame.getitem sampleDF5 (Selector.list ["b", "a"])).isOk = false :=
  list_selection_columns (by decide)

theorem maskFilter_eq_zip_filter (v m : List Elem) :
    maskFilter v m = ((v.zip m).filter (fun q => q.2 == Elem.bool true)).map Prod.fst := by
  induction v generalizing m with
  | nil => cases m <;> rfl
  | cons a t ih =>
    cases m with
    | nil => rfl
    | cons b mt =>
      by_cases hb : b = Elem.bool true
      · simp [maskFilter, hb, List.filter_cons, ih]
      · simp [maskFilter, hb, List.filter_cons, ih]

theorem maskFilter_length {v m : List Elem} (h : v.length = m.length) :
    (maskFilter v m).length = m.countP (fun e => e == Elem.bool true) := by
  induction v generalizing m with
  | nil =>
    cases m with
    | nil => simp [maskFilter]
    | cons _ _ => simp at h
  | cons a t ih =>
    cases m with
    | nil => simp at h
    | cons b mt =>
      have h' : t.length = mt.length := by simpa using h
      by_cases hb : b = Elem.bool true
      · simp [maskFilter, hb, List.countP_cons, ih h']
      · simp [maskFilter, hb, List.countP_cons, ih h']

theorem buildBoolData_ok {mask : NDArray} (items : List (String × NDArray)) :
    ∀ acc : List (String × NDArray),
    (∀ p ∈ items, p.2.data.length = mask.data.length) →
    (∀ p ∈ items, p.1 ∉ acc.map Prod.fst) →
    (items.map Prod.fst).Nodup →
    buildBoolData mask acc items =
      Except.ok (acc ++ items.map (fun p =>
        (p.1, (⟨p.2.kind, 1, maskFilter p.2.data mask.data⟩ : NDArray)))) := by
  induction items with
  | nil => intro acc _ _ _; simp [buildBoolData]
  | cons p t ih =>
    intro acc hlen hnotin hnd
    rcases p with ⟨c, values⟩
    have he : values.data.length = mask.data.length := hlen (c, values) (by simp)
    have hbi : boolIndex values mask =
        Except.ok ⟨values.kind, 1, maskFilter values.data mask.data⟩ := by
      unfold boolIndex
      rw [if_neg (by simp [he])]
    have hins : dictInsert acc c ⟨values.kind, 1, maskFilter values.data mask.data⟩ =
        acc ++ [(c, ⟨values.kind, 1, maskFilter values.data mask.data⟩)] := by
      unfold dictInsert
      rw [if_neg]
      intro hany
      rcases List.any_eq_true.mp hany with ⟨q, hq, hqc⟩
      exact hnotin (c, values) (by simp) (List.mem_map.mpr ⟨q, hq, by simpa using hqc⟩)
    simp only [List.map_cons] at hnd
    have hnd' := List.nodup_cons.mp hnd
    simp only [buildBoolData, hbi, Bind.bind, Except.bind]
    have hih := ih (acc ++ [(c, ⟨values.kind, 1, maskFilter values.data mask.data⟩)])
      (fun q hq => hlen q (by simp [hq]))
      (fun q hq => by
        simp only [List.map_append, List.mem_append, List.map_cons, List.map_nil,
          List.mem_singleton]
        rintro (h' | h')
        · exact hnotin q (by simp [hq]) h'
        · exact hnd'.1 (h' ▸ List.mem_map_of_mem Prod.fst hq))
      hnd'.2
    rw [hins, hih]
    simp

/-- C4: the mask filter itself behaves as the claim says — the loop produces,
for every column in order, exactly the original elements at the true
positions of the mask (zip/filter form), and each filtered column's length is
the number of true entries — but the selection then calls
`DataFrame(new_data)`, which raises `AttributeError` in `_add_docs`, so
`T.select(mask)` never returns the filtered table. -/
theorem boolean_mask_selection {df M : DataFrame} {mask : NDArray}
    (hWF : df.WF) (hM : M.data.length = 1)
    (hmask : mask = (M.data.headD ("", default)).2) (hkind : mask.kind = Kind.b)
    (hlen : mask.data.length = df.len) :
    buildBoolData mask [] df.data =
      Except.ok (df.data.map (fun p =>
        (p.1, (⟨p.2.kind, 1,
          ((p.2.data.zip mask.data).filter (fun q => q.2 == Elem.bool true)).map
            Prod.fst⟩ : NDArray)))) ∧
    (∀ p ∈ df.data,
        (((p.2.data.zip mask.data).filter (fun q => q.2 == Elem.bool true)).map
          Prod.fst).length = mask.data.countP (fun e => e == Elem.bool true)) ∧
    DataFrame.getitem df (Selector.df M) =
      Except.error (PyErr.attributeError "type object 'DataFrame' has no attribute 'min'") := by
  rcases hWF with ⟨hne, hnd, hall⟩
  have hlens : ∀ p ∈ df.data, p.2.data.length = mask.data.length := by
    intro p hp
    rw [hlen]
    exact (hall p hp).2.1
  have hbb := buildBoolData_ok df.data [] hlens (by simp) hnd
  have hmapeq : df.data.map (fun p =>
      (p.1, (⟨p.2.kind, 1, maskFilter p.2.data mask.data⟩ : NDArray))) =
      df.data.map (fun p =>
        (p.1, (⟨p.2.kind, 1,
          ((p.2.data.zip mask.data).filter (fun q => q.2 == Elem.bool true)).map
            Prod.fst⟩ : NDArray))) := by
    apply List.map_congr_left
    intro p _
    rw [maskFilter_eq_zip_filter]
  have hndim : ∀ p ∈ df.data.map (fun p =>
      (p.1, (⟨p.2.kind, 1, maskFilter p.2.data mask.data⟩ : NDArray))), p.2.ndim = 1 := by
    intro p hp
    rcases List.mem_map.mp hp with ⟨q, _, rfl⟩
    rfl
  have hlens2 : ∀ p ∈ df.data.map (fun p =>
      (p.1, (⟨p.2.kind, 1, maskFilter p.2.data mask.data⟩ : NDArray))),
      p.2.data.length = mask.data.countP (fun e => e == Elem.bool true) := by
    intro p hp
    rcases List.mem_map.mp hp with ⟨q, hq, rfl⟩
    exact maskFilter_length (hlens q hq)
  have hcc := createChecked_err hndim (dedup_length_one_of_all
    (by
      intro h0
      exact hne (List.map_eq_nil_iff.mp (List.map_eq_nil_iff.mp h0)))
    (by
      intro x hx
      rcases List.mem_map.mp hx with ⟨p, hp, rfl⟩
      exact hlens2 p hp))
  refine ⟨?_, ?_, ?_⟩
  · rw [hbb, List.nil_append, hmapeq]
  · intro p hp
    rw [← maskFilter_eq_zip_filter]
    exact maskFilter_length (hlens p hp)
  · simp only [DataFrame.getitem, DataFrame.getitem_bool]
    rw [if_neg (by simp [hM]), ← hmask, if_neg (by simp [hkind])]
    simp only [hbb, Bind.bind, Except.bind, List.nil_append]
    exact hcc

theorem filterMap_getElem_range {α : Type} (l : List α) :
    (List.range l.length).filterMap (fun i => l[i]?) = l := by
  induction l with
  | nil => simp
  | cons a t ih =>
    rw [List.length_cons, List.range_succ_eq_map, List.filterMap_cons, List.filterMap_map]
    simp only [List.getElem?_cons_zero, Function.comp_def, List.getElem?_cons_succ]
    rw [ih]

theorem sliceIndices_full (n : Nat) :
    sliceIndices n Option.none Option.none Option.none =
      Except.ok ((List.range n).map (fun k : Nat => (k : Int))) := by
  unfold sliceIndices sliceCount
  norm_num
  cases n with
  | zero => simp
  | succ m =>
    simp only [Nat.add_eq_zero, one_ne_zero, and_false, if_false, Nat.add_sub_cancel]
    rw [← List.map_eq_flatMap]

theorem listSlice_full {α : Type} (l : List α) :
    listSlice l Option.none Option.none Option.none = Except.ok l := by
  have h1 : ((List.range l.length).map (fun k : Nat => (k : Int))).filterMap
      (fun i => l[i.toNat]?) = l := by
    rw [List.filterMap_map]
    have h2 : ((fun i : Int => l[i.toNat]?) ∘ (fun k : Nat => (k : Int))) =
        fun i => l[i]? := by
      funext k
      simp
    rw [h2, filterMap_getElem_range]
  unfold listSlice
  rw [sliceIndices_full]
  show Except.ok (((List.range l.length).map (fun k : Nat => (k : Int))).filterMap
      (fun i => l[i.toNat]?)) = Except.ok l
  rw [h1]

theorem arraySlice_full (a : NDArray) :
    arraySlice a Option.none Option.none Option.none = Except.ok ⟨a.kind, 1, a.data⟩ := by
  unfold arraySlice
  rw [listSlice_full]
  rfl

theorem data_of_columns5 {df : DataFrame} {c1 c2 c3 c4 c5 : String}
    (h : df.columns = [c1, c2, c3, c4, c5]) :
    ∃ a1 a2 a3 a4 a5,
      df.data = [(c1, a1), (c2, a2), (c3, a3), (c4, a4), (c5, a5)] := by
  rcases df with ⟨data⟩
  rcases data with _ | ⟨⟨k1, a1⟩, _ | ⟨⟨k2, a2⟩, _ | ⟨⟨k3, a3⟩,
    _ | ⟨⟨k4, a4⟩, _ | ⟨⟨k5, a5⟩, _ | ⟨p6, t⟩⟩⟩⟩⟩⟩ <;>
    simp [DataFrame.columns] at h
  obtain ⟨h1, h2, h3, h4, h5⟩ := h
  subst h1; subst h2; subst h3; subst h4; subst h5
  exact ⟨a1, a2, a3, a4, a5, rfl⟩

theorem buildTupleData_fullslice (df : DataFrame) (cols : List String) :
    ∀ acc : List (String × NDArray),
    (∀ c ∈ cols, c ∈ df.data.map Prod.fst) →
    (∀ c ∈ cols, c ∉ acc.map Prod.fst) →
    cols.Nodup →
    ∃ es, buildTupleData df (ResRow.slice Option.none Option.none Option.none) acc cols =
        Except.ok es ∧
      es.map Prod.fst = acc.map Prod.fst ++ cols ∧
      ∀ p ∈ es, p ∈ acc ∨
        ∃ q ∈ df.data, p.2.ndim = 1 ∧ p.2.kind = q.2.kind ∧ p.2.data = q.2.data := by
  induction cols with
  | nil =>
    intro acc _ _ _
    exact ⟨acc, rfl, by simp, fun p hp => Or.inl hp⟩
  | cons c t ih =>
    intro acc hmem hnotin hnd
    obtain ⟨a, ha⟩ := dictGet_ok_of_mem (hmem c (by simp))
    have hnd' := List.nodup_cons.mp hnd
    have hins : dictInsert acc c ⟨a.kind, 1, a.data⟩ =
        acc ++ [(c, ⟨a.kind, 1, a.data⟩)] := by
      unfold dictInsert
      rw [if_neg]
      intro hany
      rcases List.any_eq_true.mp hany with ⟨q, hq, hqc⟩
      exact hnotin c (by simp) (List.mem_map.mpr ⟨q, hq, by simpa using hqc⟩)
    obtain ⟨es, h1, h2, h3⟩ := ih (acc ++ [(c, ⟨a.kind, 1, a.data⟩)])
      (fun x hx => hmem x (by simp [hx]))
      (fun x hx => by
        simp only [List.map_append, List.mem_append, List.map_cons, List.map_nil,
          List.mem_singleton]
        rintro (h' | h')
        · exact hnotin x (by simp [hx]) h'
        · exact hnd'.1 (h' ▸ hx))
      hnd'.2
    refine ⟨es, ?_, ?_, ?_⟩
    · simp only [buildTupleData, ha, Bind.bind, Except.bind, arraySlice_full]
      rw [hins]
      exact h1
    · rw [h2]
      simp
    · intro p hp
      rcases h3 p hp with hin | hq
      · rcases List.mem_append.mp hin with h' | h'
        · exact Or.inl h'
        · right
          rcases dictGet_ok_value ha with ⟨q, hq, _, hqa⟩
          have hp' : p = (c, ⟨a.kind, 1, a.data⟩) := by simpa using h'
          refine ⟨q, hq, ?_⟩
          rw [hp', hqa]
          exact ⟨rfl, rfl, rfl⟩
      · exact Or.inr hq

/-- Tuple selection with the all-rows slice and an already-resolved list of
distinct present column names runs the materialization loop and then crashes
in the final `DataFrame(new_data)` constructor (`_add_docs`). -/
theorem getitem_tuple_fullslice_columns {df : DataFrame} {cols : List String}
    (hWF : df.WF) (hne : cols ≠ []) {colS : ColSel}
    (hres : resolveCols df colS = Except.ok cols)
    (hcs : ∀ c ∈ cols, c ∈ df.columns) (hnodup : cols.Nodup) :
    df.getitem_tuple (RowSel.slice Option.none Option.none Option.none) colS =
      Except.error (PyErr.attributeError "type object 'DataFrame' has no attribute 'min'") := by
  rcases hWF with ⟨-, -, hall⟩
  obtain ⟨es, h1, h2, h3⟩ := buildTupleData_fullslice df cols [] hcs (by simp) hnodup
  have hvals : ∀ p ∈ es, ∃ q ∈ df.data, p.2.ndim = 1 ∧ p.2.kind = q.2.kind ∧
      p.2.data = q.2.data := by
    intro p hp
    rcases h3 p hp with h | h
    · simp at h
    · exact h
  have hndim : ∀ p ∈ es, p.2.ndim = 1 := by
    intro p hp
    exact (hvals p hp).choose_spec.2.1
  have hkeys : es.map Prod.fst = cols := by
    rw [h2]
    simp
  have hesne : es ≠ [] := by
    intro h0
    rw [h0] at hkeys
    exact hne hkeys.symm
  have hcc := createChecked_err hndim (dedup_length_one_of_all
    (by
      intro h0
      exact hesne (List.map_eq_nil_iff.mp h0))
    (by
      intro x hx
      rcases List.mem_map.mp hx with ⟨p, hp, rfl⟩
      rcases hvals p hp with ⟨q, hq, _, _, hdq⟩
      rw [hdq]
      exact (hall q hq).2.1))
  simp only [DataFrame.getitem_tuple, resolveRows, hres, Bind.bind, Except.bind, h1]
  exact hcc

/-- C3: the column-slice resolution behaves exactly as the claim describes —
on columns `[a,b,c,d,e]` the string-bounded slice `a:c` resolves inclusively
to `[a,b,c]` (the `+1` on a string stop), the integer slice `0:2` resolves
exclusively to `[a,b]` — but the tuple selection then ends in
`DataFrame(new_data)`, which raises `AttributeError` in `_add_docs`, so it
never returns a table with those columns. -/
theorem label_slice_inclusivity {df : DataFrame} (hWF : df.WF)
    (hcols : df.columns = ["a", "b", "c", "d", "e"]) :
    resolveCols df (ColSel.slice (SliceBound.str "a") (SliceBound.str "c") Option.none) =
      Except.ok ["a", "b", "c"] ∧
    resolveCols df (ColSel.slice (SliceBound.int 0) (SliceBound.int 2) Option.none) =
      Except.ok ["a", "b"] ∧
    DataFrame.getitem df (Selector.tuple
        (RowSel.slice Option.none Option.none Option.none)
        (ColSel.slice (SliceBound.str "a") (SliceBound.str "c") Option.none)) =
      Except.error (PyErr.attributeError "type object 'DataFrame' has no attribute 'min'") ∧
    DataFrame.getitem df (Selector.tuple
        (RowSel.slice Option.none Option.none Option.none)
        (ColSel.slice (SliceBound.int 0) (SliceBound.int 2) Option.none)) =
      Except.error (PyErr.attributeError "type object 'DataFrame' has no attribute 'min'") := by
  have h1 : resolveCols df
      (ColSel.slice (SliceBound.str "a") (SliceBound.str "c") Option.none) =
      Except.ok ["a", "b", "c"] := by
    simp only [resolveCols]
    rw [hcols]
    decide
  have h2 : resolveCols df
      (ColSel.slice (SliceBound.int 0) (SliceBound.int 2) Option.none) =
      Except.ok ["a", "b"] := by
    simp only [resolveCols]
    rw [hcols]
    decide
  refine ⟨h1, h2, ?_, ?_⟩
  · exact getitem_tuple_fullslice_columns hWF (by simp) h1
      (by
        intro c hc
        rw [hcols]
        simp only [List.mem_cons, List.not_mem_nil, or_false] at hc
        rcases hc with rfl | rfl | rfl <;> decide)
      (by decide)
  · exact getitem_tuple_fullslice_columns hWF (by simp) h2
      (by
        intro c hc
        rw [hcols]
        simp only [List.mem_cons, List.not_mem_nil, or_false] at hc
        rcases hc with rfl | rfl <;> decide)
      (by decide)

/-- Witness for C3 on a concrete five-column frame. -/
theorem label_slice_inclusivity_witness :
    resolveCols sampleDF5
        (ColSel.slice (SliceBound.str "a") (SliceBound.str "c") Option.none) =
      Except.ok ["a", "b", "c"] ∧
    resolveCols sampleDF5
        (ColSel.slice (SliceBound.int 0) (SliceBound.int 2) Option.none) =
      Except.ok ["a", "b"] ∧
    DataFrame.getitem sampleDF5 (Selector.tuple
        (RowSel.slice Option.none Option.none Option.none)
        (ColSel.slice (SliceBound.str "a") (SliceBound.str "c") Option.none)) =
      Except.error (PyErr.attributeError "type object 'DataFrame' has no attribute 'min'") ∧
    DataFrame.getitem sampleDF5 (Selector.tuple
        (RowSel.slice Option.none Option.none Option.none)
        (ColSel.slice (SliceBound.int 0) (SliceBound.int 2) Option.none)) =
      Except.error (PyErr.attributeError "type object 'DataFrame' has no attribute 'min'") :=
  label_slice_inclusivity (by decide) (by decide)

/-- Witness for C4: a concrete two-row mask with one true entry — the filter
loop yields the filtered columns, and the selection call itself raises
`AttributeError`. -/
theorem boolean_mask_selection_witness :
    buildBoolData (⟨Kind.b, 1, [Elem.bool true, Elem.bool false]⟩ : NDArray) [] sampleDF5.data =
      Except.ok (sampleDF5.data.map (fun p =>
        (p.1, (⟨p.2.kind, 1,
          ((p.2.data.zip [Elem.bool true, Elem.bool false]).filter
            (fun q => q.2 == Elem.bool true)).map Prod.fst⟩ : NDArray)))) ∧
    (∀ p ∈ sampleDF5.data,
        (((p.2.data.zip (⟨Kind.b, 1, [Elem.bool true, Elem.bool false]⟩ : NDArray).data).filter
          (fun q => q.2 == Elem.bool true)).map Prod.fst).length =
        (⟨Kind.b, 1, [Elem.bool true, Elem.bool false]⟩ : NDArray).data.countP
          (fun e => e == Elem.bool true)) ∧
    DataFrame.getitem sampleDF5
        (Selector.df ⟨[("m", ⟨Kind.b, 1, [Elem.bool true, Elem.bool false]⟩)]⟩) =
      Except.error (PyErr.attributeError "type object 'DataFrame' has no attribute 'min'") :=
  boolean_mask_selection (by decide) (by decide) rfl (by decide) (by decide)

end PandasCub
